import Mathlib

/-
  Verification of the autobisect build-cache manager specification.

  The repository's `build_manager.py` and `config.py` are exercised by
  `test_build_manager.py`; the operational definitions below are a shallow
  embedding of those modules, modelled from the specification and pinned by
  the behaviour the repository test asserts.  Filesystem paths are modelled
  as lists of components; machine state (sqlite store, disk, in-use table)
  is passed explicitly.
-/

set_option maxRecDepth 4096

namespace Autobisect

/-- A filesystem path, modelled as its list of components. -/
abbrev FsPath := List String

/-- Joining a path with one further component (os.path.join). -/
def joinPath (p : FsPath) (c : String) : FsPath := p ++ [c]

/-- The final component of a path (os.path.basename). -/
def basename (p : FsPath) : String := p.getLastD ""

/-- Insert an element at the end of a list unless it is already present. -/
def ensureMem {α : Type} [DecidableEq α] (a : α) (l : List α) : List α :=
  if a ∈ l then l else l ++ [a]

/-- Modelled from the spec: the configuration error raised by config.py
(absent from src/); the repository test pins it via
assertRaisesRegex(IOError, 'Invalid configuration file specified'). -/
structure ConfigError where
  message : String
  deriving DecidableEq

/-- Modelled from the spec: the storage error taxonomy entry for the state
store (build_manager.py is absent from src/). -/
structure StorageError where
  message : String
  deriving DecidableEq

/-- Modelled from the spec: the build-acquisition error raised when the
provider's materialization fails (build_manager.py is absent from src/). -/
structure BuildError where
  message : String
  deriving DecidableEq

/-- Modelled from the spec: the CacheConfig produced by config.py (absent
from src/): persist flag, persist_limit in bytes, storage root and state
file path. -/
structure BisectionConfig where
  persist : Bool
  persist_limit : Nat
  store_path : FsPath
  db_path : FsPath
  deriving DecidableEq

/-- Modelled from the spec: the external settings source (the .ini file)
consumed by config.py (absent from src/): whether it can be found and read,
and the recognized keys (storage path, persist flag, persist-limit in
megabytes, and an optional database path). -/
structure ConfigSource where
  readable : Bool
  storage_path : FsPath
  persist : Bool
  persist_limit_mb : Nat
  db_path_opt : Option FsPath
  deriving DecidableEq

/-- Modelled from the spec: BisectionConfig construction from a settings
source (config.py is absent from src/).  A source that cannot be found or
read fails with the configuration error whose message the repository test
checks; otherwise persist-limit is converted from megabytes to bytes and
db_path defaults to store_path/autobisect.db when unset. -/
def BisectionConfig.fromSource (src : ConfigSource) : Except ConfigError BisectionConfig :=
  if src.readable then
    Except.ok
      { persist := src.persist
        persist_limit := src.persist_limit_mb * 1048576
        store_path := src.storage_path
        db_path := src.db_path_opt.getD (joinPath src.storage_path ("autobisect.db")) }
  else
    Except.error { message := ("Invalid configuration file specified") }

/-- Modelled from the spec: the on-disk contents of the sqlite state store
managed by DatabaseManager (build_manager.py is absent from src/): the
schema (table names) and the rows of the two logical tables. -/
structure DBFile where
  tables : List String
  download_queue_rows : List String
  in_use_rows : List String
  deriving DecidableEq

/-- Modelled from the spec: an open DatabaseManager handle onto the state
store (build_manager.py is absent from src/). -/
structure DatabaseManager where
  db_path : FsPath
  isOpen : Bool
  deriving DecidableEq

/-- Modelled from the spec: DatabaseManager construction opens the backing
file at the given path, creating the file and the download_queue and in_use
tables if absent (CREATE TABLE IF NOT EXISTS), otherwise opening the
existing one (build_manager.py is absent from src/). -/
def openDB (p : FsPath) (file : Option DBFile) : DatabaseManager × DBFile :=
  match file with
  | none =>
    (⟨p, true⟩, ⟨["download_queue", "in_use"], [], []⟩)
  | some f =>
    (⟨p, true⟩,
      { f with tables := ensureMem ("in_use") (ensureMem ("download_queue") f.tables) })

/-- Modelled from the spec: DatabaseManager.close() is guarded so that a
second call (including the implicit close on disposal after an explicit
one) is a no-op and never fails (build_manager.py is absent from src/). -/
def closeDB (db : DatabaseManager) : Except StorageError DatabaseManager :=
  if db.isOpen then Except.ok { db with isOpen := false } else Except.ok db

/-- Modelled from the spec: a build artifact provider as consumed by
get_build: a changeset id, a size in bytes, and whether its
materialization (extract_build) succeeds. -/
structure Artifact where
  changeset : String
  size : Nat
  extractOk : Bool
  deriving DecidableEq

/-- Modelled from the spec: a materialized CachedBuild: changeset id,
directory path, size in bytes, and a creation/last-access order marker. -/
structure CachedBuild where
  changeset : String
  path : FsPath
  size : Nat
  order : Nat
  deriving DecidableEq

/-- Modelled from the spec: the complete observable state of a BuildManager
(build_manager.py is absent from src/): its configuration, namespace
prefix, build root directory, the tracked CachedBuild rows, the in_use and
download_queue tables (multisets of changesets), the running cached-byte
total, the set of directories on disk, the number of provider
materializations performed so far, and the next order marker. -/
structure BMState where
  config : BisectionConfig
  buildPrefix : String
  build_dir : FsPath
  builds : List CachedBuild
  in_use : List String
  download_queue : List String
  current_build_size : Nat
  disk : List FsPath
  materializeCount : Nat
  nextOrder : Nat
  deriving DecidableEq

/-- Modelled from the spec: BuildManager construction over a fresh (empty)
durable store: it derives the build root directory from store_path and the
build prefix, creates that directory on disk, and starts with no tracked
builds and a zero running total. -/
def initBM (config : BisectionConfig) (bp : String) (disk0 : List FsPath) : BMState :=
  { config := config
    buildPrefix := bp
    build_dir := joinPath config.store_path bp
    builds := []
    in_use := []
    download_queue := []
    current_build_size := 0
    disk := ensureMem (joinPath config.store_path bp) disk0
    materializeCount := 0
    nextOrder := 0 }

/-- Modelled from the spec: enumerate_builds() is the read-only ordered
list of all currently tracked CachedBuild entries. -/
def enumerate_builds (s : BMState) : List CachedBuild := s.builds

/-- The target directory for a changeset: build_dir/(prefix-changeset). -/
def buildPath (s : BMState) (cs : String) : FsPath :=
  joinPath s.build_dir (s.buildPrefix ++ "-" ++ cs)

/-- Look up the tracked CachedBuild for a changeset, if any. -/
def findBuild (s : BMState) (cs : String) : Option CachedBuild :=
  s.builds.find? (fun b => b.changeset == cs)

/-- The element of a CachedBuild list with the least order marker (the
least-recently-used build; order markers are assigned in registration
order, so ties are broken by oldest registration). -/
def minByOrder : List CachedBuild → Option CachedBuild
  | [] => none
  | b :: bs =>
    match minByOrder bs with
    | none => some b
    | some m => if b.order ≤ m.order then some b else some m

/-- Modelled from the spec: the eviction candidate is the least-recently
used CachedBuild among those with zero in-use references. -/
def evictCandidate (s : BMState) : Option CachedBuild :=
  minByOrder (s.builds.filter (fun b => decide (b.changeset ∉ s.in_use)))

/-- Modelled from the spec: evicting a build deletes its directory and its
state-store row as a pair and subtracts its size from the running total. -/
def evictBuild (s : BMState) (b : CachedBuild) : BMState :=
  { s with
      builds := s.builds.erase b
      disk := s.disk.erase b.path
      current_build_size := s.current_build_size - b.size }

/-- The eviction loop: remove not-in-use builds, least recently used first,
until the running total is below the limit or no candidate remains.  The
fuel argument bounds the iterations; remove_old_builds supplies the number
of tracked builds, which suffices since every step evicts one build. -/
def sweepAux : Nat → BMState → BMState
  | 0, s => s
  | n + 1, s =>
    if s.current_build_size < s.config.persist_limit then s
    else
      match evictCandidate s with
      | none => s
      | some b => sweepAux n (evictBuild s b)

/-- Modelled from the spec and the repository test: remove_old_builds()
checks once whether the running total exceeds persist_limit and, if so,
removes not-in-use builds (least recently used first) until the total is
below the limit; if only in-use builds remain it stops, leaving the cache
over quota. -/
def remove_old_builds (s : BMState) : BMState :=
  if s.config.persist_limit < s.current_build_size then sweepAux s.builds.length s else s

/-- Register an in-use entry for a changeset. -/
def markInUse (s : BMState) (cs : String) : BMState :=
  { s with in_use := s.in_use ++ [cs] }

/-- Update the last-access order marker of a tracked build. -/
def touch (s : BMState) (cs : String) : BMState :=
  { s with
      builds := s.builds.map
        (fun b => if b.changeset == cs then { b with order := s.nextOrder } else b)
      nextOrder := s.nextOrder + 1 }

/-- Modelled from the spec and the repository test: the download path of
get_build.  When persist quota enforcement applies it first runs the
eviction sweep (the test shows acquiring build C with the total already
over quota triggers the eviction), then registers a download-queue entry,
invokes the provider's materialization, and on success registers the
CachedBuild, adds its size to the running total, removes the queue entry,
registers an in-use entry and hands back the path; on failure it removes
the partial directory and the queue entry and propagates a build error. -/
def downloadBuild (s0 : BMState) (a : Artifact) : BMState × Except BuildError FsPath :=
  let s := if s0.config.persist then remove_old_builds s0 else s0
  let target := buildPath s a.changeset
  let s1 := { s with
      download_queue := s.download_queue ++ [a.changeset]
      materializeCount := s.materializeCount + 1 }
  if a.extractOk then
    let s2 := { s1 with
        disk := s1.disk ++ [target]
        builds := s1.builds ++
          [{ changeset := a.changeset, path := target, size := a.size, order := s1.nextOrder }]
        nextOrder := s1.nextOrder + 1
        current_build_size := s1.current_build_size + a.size
        download_queue := s1.download_queue.erase a.changeset
        in_use := s1.in_use ++ [a.changeset] }
    (s2, Except.ok target)
  else
    let s2 := { s1 with download_queue := s1.download_queue.erase a.changeset }
    (s2, Except.error { message := ("build extraction failed") })

/-- Modelled from the spec: get_build(artifact).  If the changeset is
already tracked and its directory is present on disk, the in-use reference
is incremented, the last-access marker updated, and the existing path
handed back with no download; otherwise the download path runs. -/
def get_build (s : BMState) (a : Artifact) : BMState × Except BuildError FsPath :=
  match findBuild s a.changeset with
  | some b =>
    if b.path ∈ s.disk then
      (markInUse (touch s a.changeset) a.changeset, Except.ok b.path)
    else
      downloadBuild s a
  | none => downloadBuild s a

/-- Modelled from the spec and the repository test: releasing a checkout
removes the caller's in-use entry for that changeset.  (The repository
test pins that the eviction sweep does not run here: after releasing the
second 1-byte build with persist_limit forced to 1 byte, both builds are
still cached.) -/
def releaseBuild (s : BMState) (cs : String) : BMState :=
  { s with in_use := s.in_use.erase cs }

/-- Modelled from the spec: the scoped acquisition (the with-statement
around get_build): on success the checkout is released on exit of the
holder's block; a failed acquisition hands out no checkout. -/
def withBuild (s : BMState) (a : Artifact) : BMState :=
  match get_build s a with
  | (s1, Except.ok _) => releaseBuild s1 a.changeset
  | (s1, Except.error _) => s1

/-- Whether the first list of characters is a prefix of the second. -/
def isPrefixChars : List Char → List Char → Bool
  | [], _ => true
  | _ :: _, [] => false
  | a :: as, b :: bs => a == b && isPrefixChars as bs

/-- Whether the pattern occurs contiguously inside the text. -/
def containsChars (pat : List Char) : List Char → Bool
  | [] => isPrefixChars pat []
  | c :: cs => isPrefixChars pat (c :: cs) || containsChars pat cs

/-- Whether the literal pattern occurs inside the message; this models a
regular-expression search for a literal pattern, which is what the
repository test performs with assertRaisesRegex. -/
def strContains (msg pat : String) : Bool := containsChars pat.data msg.data

/-- A settings source matching the one written by the repository test:
readable, persist on, persist-limit 30000 megabytes, no database path. -/
def srcW : ConfigSource :=
  { readable := true
    storage_path := ["store"]
    persist := true
    persist_limit_mb := 30000
    db_path_opt := none }

/-- A settings source that cannot be found or read. -/
def srcMissing : ConfigSource :=
  { readable := false
    storage_path := []
    persist := false
    persist_limit_mb := 0
    db_path_opt := none }

def cfgW : BisectionConfig :=
  { persist := true
    persist_limit := 1
    store_path := ["root"]
    db_path := ["root", "autobisect.db"] }

def artHeld : Artifact := { changeset := "A", size := 2, extractOk := true }

def sHeld : BMState := (get_build (initBM cfgW ("p") []) artHeld).1

def bHeld : CachedBuild := { changeset := "A", path := ["root", "p", "p-A"], size := 2, order := 0 }

def artA : Artifact := { changeset := "A", size := 1, extractOk := true }

def artB : Artifact := { changeset := "B", size := 1, extractOk := true }

def sA : BMState := withBuild (initBM cfgW ("p") []) artA

def sPostRelB : BMState := releaseBuild (get_build sA artB).1 ("B")

def bA : CachedBuild := { changeset := "A", path := ["root", "p", "p-A"], size := 1, order := 0 }

def c2Cfg : BisectionConfig :=
  { persist := true
    persist_limit := 1
    store_path := ["root"]
    db_path := ["root", "autobisect.db"] }

def c2Init : BMState := initBM c2Cfg ("p") []

def c2Art (cs : String) : Artifact := { changeset := cs, size := 1, extractOk := true }

theorem self_mem_ensureMem {α : Type} [DecidableEq α] (a : α) (l : List α) :
    a ∈ ensureMem a l := by
  unfold ensureMem
  split
  · assumption
  · simp

theorem mem_ensureMem_of_mem {α : Type} [DecidableEq α] {a : α} (b : α) {l : List α}
    (h : a ∈ l) : a ∈ ensureMem b l := by
  unfold ensureMem
  split
  · exact h
  · exact List.mem_append_left _ h

theorem minByOrder_mem : ∀ {l : List CachedBuild} {b : CachedBuild},
    minByOrder l = some b → b ∈ l := by
  intro l
  induction l with
  | nil => intro b h; exact Option.noConfusion h
  | cons a as ih =>
    intro b h
    unfold minByOrder at h
    split at h
    · cases Option.some.inj h
      exact List.mem_cons_self a as
    · rename_i m hm
      split at h
      · cases Option.some.inj h
        exact List.mem_cons_self a as
      · cases Option.some.inj h
        exact List.mem_cons_of_mem _ (ih hm)

theorem minByOrder_eq_none : ∀ {l : List CachedBuild}, minByOrder l = none → l = [] := by
  intro l
  cases l with
  | nil => intro _; rfl
  | cons a as =>
    intro h
    exfalso
    unfold minByOrder at h
    split at h
    · exact Option.noConfusion h
    · split at h <;> exact Option.noConfusion h

theorem evictCandidate_spec {s : BMState} {c : CachedBuild}
    (h : evictCandidate s = some c) : c ∈ s.builds ∧ c.changeset ∉ s.in_use := by
  have hm := minByOrder_mem h
  have hf := List.mem_filter.mp hm
  exact ⟨hf.1, of_decide_eq_true hf.2⟩

theorem evictCandidate_none {s : BMState} (h : evictCandidate s = none) :
    ∀ b ∈ s.builds, b.changeset ∈ s.in_use := by
  intro b hb
  by_contra hbu
  have hf : b ∈ s.builds.filter (fun b => decide (b.changeset ∉ s.in_use)) :=
    List.mem_filter.mpr ⟨hb, decide_eq_true hbu⟩
  have hnil := minByOrder_eq_none h
  rw [hnil] at hf
  exact absurd hf (List.not_mem_nil b)

theorem sweepAux_keeps_in_use : ∀ (n : Nat) (s : BMState),
    (sweepAux n s).in_use = s.in_use ∧
    ∀ b ∈ s.builds, b.changeset ∈ s.in_use → b ∈ (sweepAux n s).builds := by
  intro n
  induction n with
  | zero => intro s; exact ⟨rfl, fun b hb _ => hb⟩
  | succ n ih =>
    intro s
    simp only [sweepAux]
    split
    · exact ⟨rfl, fun b hb _ => hb⟩
    · cases hc : evictCandidate s with
      | none => exact ⟨rfl, fun b hb _ => hb⟩
      | some c =>
        have hspec := evictCandidate_spec hc
        constructor
        · exact (ih (evictBuild s c)).1
        · intro b hb hu
          have hne : b ≠ c := fun he => hspec.2 (he ▸ hu)
          exact (ih (evictBuild s c)).2 b ((List.mem_erase_of_ne hne).mpr hb) hu

theorem sweepAux_post : ∀ (n : Nat) (s : BMState), s.builds.length ≤ n →
    (sweepAux n s).current_build_size < s.config.persist_limit ∨
    ∀ b ∈ (sweepAux n s).builds, b.changeset ∈ (sweepAux n s).in_use := by
  intro n
  induction n with
  | zero =>
    intro s hlen
    right
    have hnil : s.builds = [] := List.eq_nil_of_length_eq_zero (Nat.le_zero.mp hlen)
    intro b hb
    rw [show sweepAux 0 s = s from rfl] at hb ⊢
    rw [hnil] at hb
    exact absurd hb (List.not_mem_nil b)
  | succ n ih =>
    intro s hlen
    simp only [sweepAux]
    split
    case isTrue h => exact Or.inl h
    case isFalse h =>
      cases hc : evictCandidate s with
      | none => exact Or.inr (fun b hb => evictCandidate_none hc b hb)
      | some c =>
        have hmem := (evictCandidate_spec hc).1
        have hlen2 : (evictBuild s c).builds.length ≤ n := by
          have he := List.length_erase_of_mem hmem
          have : (evictBuild s c).builds.length = s.builds.length - 1 := he
          omega
        exact ih (evictBuild s c) hlen2

theorem c2_step1 (ca : String) :
    withBuild c2Init (c2Art ca) =
      { config := c2Cfg
        buildPrefix := "p"
        build_dir := ["root", "p"]
        builds := [{ changeset := ca, path := ["root", "p", "p" ++ "-" ++ ca], size := 1, order := 0 }]
        in_use := []
        download_queue := []
        current_build_size := 1
        disk := [["root", "p"], ["root", "p", "p" ++ "-" ++ ca]]
        materializeCount := 1
        nextOrder := 1 } := by
  simp [c2Init, c2Cfg, c2Art, withBuild, get_build, findBuild, downloadBuild,
    remove_old_builds, sweepAux, initBM, ensureMem, buildPath, joinPath,
    releaseBuild, markInUse, touch]

end Autobisect

namespace Autobisect

theorem c2_step2 (ca cb : String) (hab : ca ≠ cb) :
    withBuild (withBuild c2Init (c2Art ca)) (c2Art cb) =
      { config := c2Cfg
        buildPrefix := "p"
        build_dir := ["root", "p"]
        builds := [{ changeset := ca, path := ["root", "p", "p" ++ "-" ++ ca], size := 1, order := 0 },
                   { changeset := cb, path := ["root", "p", "p" ++ "-" ++ cb], size := 1, order := 1 }]
        in_use := []
        download_queue := []
        current_build_size := 2
        disk := [["root", "p"], ["root", "p", "p" ++ "-" ++ ca], ["root", "p", "p" ++ "-" ++ cb]]
        materializeCount := 2
        nextOrder := 2 } := by
  have eab : (ca == cb) = false := beq_eq_false_iff_ne.mpr hab
  rw [c2_step1]
  simp [c2Cfg, c2Art, withBuild, get_build, findBuild, downloadBuild,
    remove_old_builds, sweepAux, buildPath, joinPath, releaseBuild, markInUse,
    touch, eab]

end Autobisect

namespace Autobisect

theorem c2_step3 (ca cb cc : String) (hab : ca ≠ cb) (hac : ca ≠ cc) (hbc : cb ≠ cc) :
    withBuild (withBuild (withBuild c2Init (c2Art ca)) (c2Art cb)) (c2Art cc) =
      { config := c2Cfg
        buildPrefix := "p"
        build_dir := ["root", "p"]
        builds := [{ changeset := cc, path := ["root", "p", "p" ++ "-" ++ cc], size := 1, order := 2 }]
        in_use := []
        download_queue := []
        current_build_size := 1
        disk := [["root", "p"], ["root", "p", "p" ++ "-" ++ cc]]
        materializeCount := 3
        nextOrder := 3 } := by
  have eac : (ca == cc) = false := beq_eq_false_iff_ne.mpr hac
  have ebc : (cb == cc) = false := beq_eq_false_iff_ne.mpr hbc
  rw [c2_step2 ca cb hab]
  simp [c2Cfg, c2Art, withBuild, get_build, findBuild, downloadBuild,
    remove_old_builds, sweepAux, evictCandidate, evictBuild, minByOrder,
    buildPath, joinPath, releaseBuild, markInUse, touch, eac, ebc,
    List.erase_cons]

/-- C5: for every readable configuration source specifying an integer
persist-limit of N megabytes, the constructed configuration's
persist_limit field equals exactly N * 1048576 bytes. -/
theorem persist_limit_megabytes (src : ConfigSource) (h : src.readable = true) :
    ∃ c, BisectionConfig.fromSource src = Except.ok c ∧
      c.persist_limit = src.persist_limit_mb * 1048576 := by
  refine ⟨{ persist := src.persist
            persist_limit := src.persist_limit_mb * 1048576
            store_path := src.storage_path
            db_path := src.db_path_opt.getD (joinPath src.storage_path ("autobisect.db")) },
          ?_, rfl⟩
  simp [BisectionConfig.fromSource, h]

/-- C5 witness: a configured persist-limit of 30000 megabytes resolves to
30000 * 1048576 bytes. -/
theorem persist_limit_megabytes_witness :
    srcW.readable = true ∧
    ∃ c, BisectionConfig.fromSource srcW = Except.ok c ∧
      c.persist_limit = 30000 * 1048576 :=
  ⟨rfl, persist_limit_megabytes srcW rfl⟩

/-- C6 counterexample: on a source that cannot be found, construction
fails with the message "Invalid configuration file specified" (capital I,
as the repository test checks with assertRaisesRegex), and that message
does not match the pattern "invalid configuration file specified" claimed
by the specification, since a regular-expression search is
case-sensitive. -/
theorem config_error_message_case :
    BisectionConfig.fromSource srcMissing =
      Except.error { message := ("Invalid configuration file specified") } ∧
    strContains ("Invalid configuration file specified")
      ("invalid configuration file specified") = false :=
  ⟨rfl, by decide⟩

/-- C6 (amended): for every source that cannot be found or read,
construction fails with a configuration error whose message is exactly
"Invalid configuration file specified" (capitalized), and never succeeds
silently. -/
theorem missing_config_fails (src : ConfigSource) (h : src.readable = false) :
    BisectionConfig.fromSource src =
      Except.error { message := ("Invalid configuration file specified") } ∧
    ∀ c, BisectionConfig.fromSource src ≠ Except.ok c := by
  constructor
  · simp [BisectionConfig.fromSource, h]
  · intro c hc
    simp [BisectionConfig.fromSource, h] at hc

/-- C6 witness: the amended claim at the concrete missing source. -/
theorem missing_config_fails_witness :
    srcMissing.readable = false ∧
    (BisectionConfig.fromSource srcMissing =
      Except.error { message := ("Invalid configuration file specified") } ∧
     ∀ c, BisectionConfig.fromSource srcMissing ≠ Except.ok c) :=
  ⟨rfl, missing_config_fails srcMissing rfl⟩

/-- C7: for every readable source that does not set a database path, the
constructed configuration's db_path equals store_path joined with
"autobisect.db". -/
theorem db_path_default (src : ConfigSource) (h : src.readable = true)
    (h2 : src.db_path_opt = none) :
    ∃ c, BisectionConfig.fromSource src = Except.ok c ∧
      c.db_path = joinPath src.storage_path ("autobisect.db") := by
  refine ⟨{ persist := src.persist
            persist_limit := src.persist_limit_mb * 1048576
            store_path := src.storage_path
            db_path := joinPath src.storage_path ("autobisect.db") },
          ?_, rfl⟩
  simp [BisectionConfig.fromSource, h, h2]

/-- C7 witness: the default db_path at the test's settings source. -/
theorem db_path_default_witness :
    srcW.readable = true ∧ srcW.db_path_opt = none ∧
    ∃ c, BisectionConfig.fromSource srcW = Except.ok c ∧
      c.db_path = joinPath ["store"] ("autobisect.db") :=
  ⟨rfl, rfl, db_path_default srcW rfl rfl⟩

/-- C8: opening the state store with no backing file creates the file with
the download_queue and in_use tables; opening again on the resulting file
yields exactly the same handle and file (idempotent), and reopening any
existing file also exposes both tables. -/
theorem open_idempotent (p : FsPath) (f : DBFile) :
    ("download_queue") ∈ (openDB p none).2.tables ∧
    ("in_use") ∈ (openDB p none).2.tables ∧
    openDB p (some (openDB p none).2) = openDB p none ∧
    ("download_queue") ∈ (openDB p (some f)).2.tables ∧
    ("in_use") ∈ (openDB p (some f)).2.tables := by
  refine ⟨?_, ?_, ?_, ?_, ?_⟩
  · simp [openDB]
  · simp [openDB]
  · simp [openDB, ensureMem]
  · exact mem_ensureMem_of_mem _ (self_mem_ensureMem _ _)
  · exact self_mem_ensureMem _ _

/-- C9: close() never fails, and a second close (including the implicit
close on disposal after an explicit one) is a no-op on the already-closed
handle. -/
theorem close_idempotent (db : DatabaseManager) :
    ∃ db2, closeDB db = Except.ok db2 ∧ closeDB db2 = Except.ok db2 := by
  by_cases h : db.isOpen
  · refine ⟨{ db with isOpen := false }, ?_, ?_⟩
    · simp [closeDB, h]
    · simp [closeDB]
  · refine ⟨db, ?_, ?_⟩ <;> simp [closeDB, h]

/-- C10: immediately after construction the manager's build root directory
exists on disk, its prefix equals the given prefix, its running total is
zero and it tracks no builds. -/
theorem init_creates_build_dir (config : BisectionConfig) (bp : String)
    (disk0 : List FsPath) :
    (initBM config bp disk0).build_dir ∈ (initBM config bp disk0).disk ∧
    (initBM config bp disk0).buildPrefix = bp ∧
    (initBM config bp disk0).current_build_size = 0 ∧
    enumerate_builds (initBM config bp disk0) = [] := by
  refine ⟨?_, rfl, rfl, rfl⟩
  exact self_mem_ensureMem _ _

/-- C1: for every cache state, the eviction sweep never removes a
CachedBuild that has at least one in-use reference, even while the running
total exceeds persist_limit, and the sweep itself releases no reference
(so a build becomes eligible only once its holder releases it). -/
theorem in_use_never_evicted (s : BMState) (b : CachedBuild)
    (hb : b ∈ s.builds) (hu : b.changeset ∈ s.in_use) :
    b ∈ (remove_old_builds s).builds ∧ (remove_old_builds s).in_use = s.in_use := by
  unfold remove_old_builds
  split
  · exact ⟨(sweepAux_keeps_in_use _ s).2 b hb hu, (sweepAux_keeps_in_use _ s).1⟩
  · exact ⟨hb, rfl⟩

/-- C1 witness: a held 2-byte build with the total over the 1-byte quota
survives the sweep. -/
theorem in_use_never_evicted_witness :
    bHeld ∈ sHeld.builds ∧ bHeld.changeset ∈ sHeld.in_use ∧
    sHeld.config.persist_limit < sHeld.current_build_size ∧
    (bHeld ∈ (remove_old_builds sHeld).builds ∧
     (remove_old_builds sHeld).in_use = sHeld.in_use) :=
  ⟨by decide, by decide, by decide, in_use_never_evicted sHeld bHeld (by decide) (by decide)⟩

/-- C3 (amended): releasing a checkout removes only the in-use entry and
never evicts anything by itself; the eviction sweep (which get_build runs
on its download path) always ends with the running total within
persist_limit or with every still-cached build holding an in-use
reference. -/
theorem sweep_postcondition (s : BMState) :
    ((remove_old_builds s).current_build_size ≤ s.config.persist_limit ∨
     ∀ b ∈ (remove_old_builds s).builds, b.changeset ∈ (remove_old_builds s).in_use) ∧
    ∀ cs, (releaseBuild s cs).builds = s.builds ∧
      (releaseBuild s cs).current_build_size = s.current_build_size := by
  constructor
  · unfold remove_old_builds
    split
    case isTrue h =>
      rcases sweepAux_post s.builds.length s (Nat.le_refl _) with h2 | h2
      · exact Or.inl (Nat.le_of_lt h2)
      · exact Or.inr h2
    case isFalse h => exact Or.inl (Nat.le_of_not_lt h)
  · intro cs
    exact ⟨rfl, rfl⟩

/-- C3 counterexample: with persist enabled and persist_limit 1, directly
after the release of build B the cache holds two 1-byte builds, the total
exceeds the limit, and a cached build has no in-use reference — so the
claimed release-time sweep postcondition is violated, because the sweep
does not run on the release path. -/
theorem release_no_sweep_counterexample :
    sPostRelB.config.persist = true ∧
    sPostRelB.config.persist_limit < sPostRelB.current_build_size ∧
    ∃ b ∈ sPostRelB.builds, b.changeset ∉ sPostRelB.in_use := by decide

/-- C4: for every artifact whose changeset is tracked with its directory
present on disk (with the tracked path of the canonical form get_build
registers), get_build performs no materialization, hands back the existing
path, and that path's basename is exactly the build prefix, a dash, and
the changeset. -/
theorem cached_build_no_download (s : BMState) (a : Artifact) (b : CachedBuild)
    (hfind : findBuild s a.changeset = some b)
    (hdisk : b.path ∈ s.disk)
    (hpath : b.path = buildPath s a.changeset) :
    (get_build s a).2 = Except.ok b.path ∧
    (get_build s a).1.materializeCount = s.materializeCount ∧
    basename b.path = s.buildPrefix ++ "-" ++ a.changeset := by
  have hb : get_build s a = (markInUse (touch s a.changeset) a.changeset, Except.ok b.path) := by
    unfold get_build
    rw [hfind]
    simp [hdisk]
  refine ⟨by rw [hb], by rw [hb]; rfl, ?_⟩
  rw [hpath]
  unfold buildPath basename joinPath
  exact List.getLastD_concat _ _ _

/-- C4 witness: re-requesting the already-cached build A downloads nothing
and returns its path, whose basename is p-A. -/
theorem cached_build_no_download_witness :
    findBuild sA artA.changeset = some bA ∧ bA.path ∈ sA.disk ∧
    bA.path = buildPath sA artA.changeset ∧
    ((get_build sA artA).2 = Except.ok bA.path ∧
     (get_build sA artA).1.materializeCount = sA.materializeCount ∧
     basename bA.path = sA.buildPrefix ++ "-" ++ artA.changeset) :=
  ⟨by decide, by decide, by decide,
   cached_build_no_download sA artA bA (by decide) (by decide) (by decide)⟩

/-- C2: from a fresh manager with persist enabled and a 1-byte
persist_limit, sequentially acquiring and releasing three distinct 1-byte
builds gives size 1 and one cached build after the first release, size 2
and two cached builds after the second, and size 1 and one cached build
after the third (the third acquisition evicts the oldest builds). -/
theorem three_builds_scenario (ca cb cc : String)
    (hab : ca ≠ cb) (hac : ca ≠ cc) (hbc : cb ≠ cc) :
    (withBuild c2Init (c2Art ca)).current_build_size = 1 ∧
    (enumerate_builds (withBuild c2Init (c2Art ca))).length = 1 ∧
    (withBuild (withBuild c2Init (c2Art ca)) (c2Art cb)).current_build_size = 2 ∧
    (enumerate_builds (withBuild (withBuild c2Init (c2Art ca)) (c2Art cb))).length = 2 ∧
    (withBuild (withBuild (withBuild c2Init (c2Art ca)) (c2Art cb)) (c2Art cc)).current_build_size = 1 ∧
    (enumerate_builds (withBuild (withBuild (withBuild c2Init (c2Art ca)) (c2Art cb)) (c2Art cc))).length = 1 := by
  refine ⟨?_, ?_, ?_, ?_, ?_, ?_⟩
  · rw [c2_step1]
  · rw [c2_step1]; rfl
  · rw [c2_step2 ca cb hab]
  · rw [c2_step2 ca cb hab]; rfl
  · rw [c2_step3 ca cb cc hab hac hbc]
  · rw [c2_step3 ca cb cc hab hac hbc]; rfl

/-- C2 witness: the scenario at the concrete distinct changesets A, B, C. -/
theorem three_builds_scenario_witness :
    ("A" : String) ≠ "B" ∧ ("A" : String) ≠ "C" ∧ ("B" : String) ≠ "C" ∧
    ((withBuild c2Init (c2Art ("A"))).current_build_size = 1 ∧
     (enumerate_builds (withBuild c2Init (c2Art ("A")))).length = 1 ∧
     (withBuild (withBuild c2Init (c2Art ("A"))) (c2Art ("B"))).current_build_size = 2 ∧
     (enumerate_builds (withBuild (withBuild c2Init (c2Art ("A"))) (c2Art ("B" )))).length = 2 ∧
     (withBuild (withBuild (withBuild c2Init (c2Art ("A"))) (c2Art ("B"))) (c2Art ("C"))).current_build_size = 1 ∧
     (enumerate_builds (withBuild (withBuild (withBuild c2Init (c2Art ("A"))) (c2Art ("B"))) (c2Art ("C")))).length = 1) :=
  ⟨by decide, by decide, by decide,
   three_builds_scenario ("A") ("B") ("C") (by decide) (by decide) (by decide)⟩

end Autobisect
